import Mathlib

/-!
Verification of behavioral claims about the rungalileo/sdk-examples repository.

Each Python function relevant to a claim is shallowly embedded as an executable
Lean definition translated from the source.  External services (the OpenAI
embedding API, the pgvector `<=>` distance operator, the Oso Cloud client, the
MCP client, `json.loads`, `datetime.fromisoformat`, the tiktoken encoder) are
modelled as explicit parameters or abstract outcome values, since their code is
not part of the repository; everything the repository's own code does (control
flow, filtering, ordering, exception handling, state updates) is translated
directly.
-/

namespace SdkExamples

/-! ## `rag_service/utils/embeddings.py` : `similarity_search`

The Python function embeds the query (external API), then builds a SQL query
over `embeddings e JOIN documents d ON e.document_id = d.id` with
`WHERE 1 - (e.embedding_vector <=> :query_vector) > :threshold`, an optional
`AND e.document_id IN (...)` filter added only when `document_ids` is truthy
(i.e. a non-None, non-empty list), then `ORDER BY similarity DESC LIMIT :limit`.
The SQL execution is modelled with standard relational semantics; the pgvector
cosine-distance operator `<=>` is an abstract parameter `dist`.  The paths that
return `[]` (embedding failure `if not query_embedding`, or any exception
during execution) are modelled by the `query_embedding = []` / `db_error`
branches. -/

namespace SimSearch

structure EmbeddingRow where
  id : Nat
  document_id : Nat
  content_chunk : String
  chunk_index : Nat
  embedding_vector : List ℚ
deriving DecidableEq, Repr

structure DocumentRow where
  id : Nat
  title : String
  document_type : String
  department : String
  is_sensitive : Bool
deriving DecidableEq, Repr

/-- The dictionary built per returned SQL row (Python lines 129-149). -/
structure ResultRow where
  id : Nat
  title : String
  content_chunk : String
  document_type : String
  department : String
  similarity_score : ℚ
  embedding_id : Nat
  document_id : Nat
  chunk_index : Nat
  document_title : String
  is_sensitive : Bool
  similarity : ℚ
deriving DecidableEq, Repr

/-- `1 - (e.embedding_vector <=> :query_vector)` with `<=>` abstract. -/
def rowSimilarity (dist : List ℚ → List ℚ → ℚ) (qvec : List ℚ)
    (e : EmbeddingRow) : ℚ :=
  1 - dist e.embedding_vector qvec

def mkResultRow (dist : List ℚ → List ℚ → ℚ) (qvec : List ℚ)
    (r : EmbeddingRow × DocumentRow) : ResultRow :=
  { id := r.1.document_id
    title := r.2.title
    content_chunk := r.1.content_chunk
    document_type := r.2.document_type
    department := r.2.department
    similarity_score := rowSimilarity dist qvec r.1
    embedding_id := r.1.id
    document_id := r.1.document_id
    chunk_index := r.1.chunk_index
    document_title := r.2.title
    is_sensitive := r.2.is_sensitive
    similarity := rowSimilarity dist qvec r.1 }

/-- Descending-similarity comparison used for `ORDER BY similarity DESC`. -/
def simGE (dist : List ℚ → List ℚ → ℚ) (qvec : List ℚ)
    (a b : EmbeddingRow × DocumentRow) : Prop :=
  rowSimilarity dist qvec b.1 ≤ rowSimilarity dist qvec a.1

instance (dist : List ℚ → List ℚ → ℚ) (qvec : List ℚ) :
    DecidableRel (simGE dist qvec) := fun a b =>
  inferInstanceAs (Decidable (rowSimilarity dist qvec b.1 ≤ rowSimilarity dist qvec a.1))

instance (dist : List ℚ → List ℚ → ℚ) (qvec : List ℚ) :
    IsTotal (EmbeddingRow × DocumentRow) (simGE dist qvec) :=
  ⟨fun a b => le_total (rowSimilarity dist qvec b.1) (rowSimilarity dist qvec a.1)⟩

instance (dist : List ℚ → List ℚ → ℚ) (qvec : List ℚ) :
    IsTrans (EmbeddingRow × DocumentRow) (simGE dist qvec) :=
  ⟨fun _ _ _ hab hbc => le_trans hbc hab⟩

/-- `FROM embeddings e JOIN documents d ON e.document_id = d.id`. -/
def joinRows (es : List EmbeddingRow) (ds : List DocumentRow) :
    List (EmbeddingRow × DocumentRow) :=
  es.flatMap fun e =>
    (ds.filter fun d => d.id == e.document_id).map fun d => (e, d)

/-- `WHERE 1 - (e.embedding_vector <=> :query_vector) > :threshold`. -/
def thresholdFilter (dist : List ℚ → List ℚ → ℚ) (qvec : List ℚ)
    (similarity_threshold : ℚ) (l : List (EmbeddingRow × DocumentRow)) :
    List (EmbeddingRow × DocumentRow) :=
  l.filter fun r => similarity_threshold < rowSimilarity dist qvec r.1

/-- `AND e.document_id IN (...)`, appended to the SQL only under Python
truthiness `if document_ids:` — i.e. only for a non-None, non-empty list. -/
def allowlistFilter (document_ids : Option (List Nat))
    (l : List (EmbeddingRow × DocumentRow)) :
    List (EmbeddingRow × DocumentRow) :=
  match document_ids with
  | some ids =>
      if ids.isEmpty then l
      else l.filter fun r => ids.contains r.1.document_id
  | none => l

def similarity_search (dist : List ℚ → List ℚ → ℚ)
    (es : List EmbeddingRow) (ds : List DocumentRow)
    (query_embedding : List ℚ) (db_error : Bool)
    (limit : Nat) (similarity_threshold : ℚ)
    (document_ids : Option (List Nat)) : List ResultRow :=
  if query_embedding = [] then []
  else if db_error then []
  else
    ((allowlistFilter document_ids
        (thresholdFilter dist query_embedding similarity_threshold
          (joinRows es ds))).insertionSort
        (simGE dist query_embedding)).take limit
      |>.map (mkResultRow dist query_embedding)

end SimSearch

/-! ## `rag_service/utils/text_processing.py` : `chunk_text`

The tiktoken encoder is external; the function's own logic operates on the
token sequence, modelled as `List Nat`.  A produced chunk is modelled as its
token slice (the Python code decodes each slice back to text and strips it;
the decode step is the external tokenizer's inverse and is not part of the
repository's logic).  The `while` loop is embedded with explicit fuel:
`none` models non-termination (the loop has no other exit than its two
conditions). -/

namespace ChunkText

/-- One iteration step of the `while start < len(tokens)` loop:
`end = start + chunk_size`; append `tokens[start:end]`;
`start = end - chunk_overlap`; `break` once `end >= len(tokens)`. -/
def chunkLoop (tokens : List Nat) (chunk_size chunk_overlap : Nat) :
    Nat → Nat → Option (List (List Nat))
  | _, 0 => none
  | start, fuel + 1 =>
    if start < tokens.length then
      let chunk := (tokens.drop start).take chunk_size
      if tokens.length ≤ start + chunk_size then some [chunk]
      else
        match chunkLoop tokens chunk_size chunk_overlap
            (start + chunk_size - chunk_overlap) fuel with
        | some rest => some (chunk :: rest)
        | none => none
    else some []

def chunk_text (tokens : List Nat) (chunk_size chunk_overlap : Nat) :
    Option (List (List Nat)) :=
  chunkLoop tokens chunk_size chunk_overlap 0 (tokens.length + 1)

/-- Closed-form list of chunk start positions, used to state what the loop
produces.  Guarded by `chunk_overlap < chunk_size`, the condition under which
the loop advances. -/
def startsFrom (n chunk_size chunk_overlap : Nat) (start : Nat) : List Nat :=
  if _h : chunk_overlap < chunk_size ∧ start < n then
    if n ≤ start + chunk_size then [start]
    else start :: startsFrom n chunk_size chunk_overlap
      (start + (chunk_size - chunk_overlap))
  else []
termination_by n - start
decreasing_by omega

end ChunkText

/-! ## `rag_service/utils/embeddings.py` : `combine_chunks_for_context`

Token counts are estimated as `len(chunk.split()) * 1.3`; Python's
`str.split()` with no argument splits on runs of whitespace and drops empty
pieces.  The `1.3` multiplier is modelled as the rational `13/10`.  The Python
default for `max_tokens` is `6000`. -/

namespace Combine

structure SearchResult where
  content_chunk : String
  document_title : String
deriving DecidableEq, Repr

/-- Python `str.split()` (no separator): whitespace runs, empties dropped. -/
def pyWords (s : String) : List String :=
  (s.split Char.isWhitespace).filter fun w => w ≠ ""

/-- `chunk_tokens = len(chunk.split()) * 1.3`. -/
def estTokens (s : String) : ℚ :=
  ((pyWords s).length : ℚ) * (13 / 10)

/-- `f"Document: {title}\nContent: {chunk}\n---\n"`. -/
def contextPart (r : SearchResult) : String :=
  "Document: " ++ r.document_title ++ "\nContent: " ++ r.content_chunk ++ "\n---\n"

/-- The accumulation loop over `search_results` (`break` on overflow). -/
def combineParts : List SearchResult → ℚ → ℚ → List String
  | [], _, _ => []
  | r :: rest, max_tokens, current_tokens =>
    let chunk_tokens := estTokens r.content_chunk
    if max_tokens < current_tokens + chunk_tokens then []
    else contextPart r :: combineParts rest max_tokens (current_tokens + chunk_tokens)

def combine_chunks_for_context (search_results : List SearchResult)
    (max_tokens : ℚ) : String :=
  String.intercalate "\n" (combineParts search_results max_tokens 0)

/-- Total estimated token count of a list of results. -/
def estSum (l : List SearchResult) : ℚ :=
  (l.map fun r => estTokens r.content_chunk).sum

end Combine

/-! ## Healthcare portal: shared row types and HTTP errors

SQLAlchemy rows are modelled as structures, the database table as a list of
rows, and `raise HTTPException(status_code, detail)` as an `Except` error.
`datetime` values are abstract (`Nat`); `datetime.fromisoformat` is an
external-library parameter.  Python truthiness tests on optional fields
(`if patient_data.date_of_birth:`, `if patient_data.assigned_doctor_id:`) are
translated exactly: `None`, the empty string and `0` are falsy. -/

namespace Portal

structure HTTPError where
  status : Nat
  detail : String
deriving DecidableEq, Repr

structure UserRow where
  id : Nat
  username : String
  email : String
  hashed_password : String
  role : String
  department : Option String
  is_active : Bool
deriving DecidableEq, Repr

structure PatientRow where
  id : Nat
  name : String
  date_of_birth : Option Nat
  medical_record_number : String
  department : Option String
  assigned_doctor_id : Option Nat
  is_active : Bool
deriving DecidableEq, Repr

/-- Pydantic `PatientCreate` request body. -/
structure PatientCreate where
  name : String
  medical_record_number : String
  department : Option String
  date_of_birth : Option String
  assigned_doctor_id : Option Nat
deriving DecidableEq, Repr

/-- Pydantic `UserCreate` request body. -/
structure UserCreate where
  username : String
  email : String
  role : String
  department : Option String
  password : String
deriving DecidableEq, Repr

/-- Outcome of one call to an `oso_sync` helper as seen by a router's
`try`/`except` block: `.error` models a raised exception, `.ok b` a normal
return of `b`. -/
abbrev SyncCall := Except String Bool

/-- The `date_of_birth` parsing block of `create_patient`/`update_patient`:
`if patient_data.date_of_birth:` (Python truthiness — `None` and `""` skip
parsing), then `datetime.fromisoformat` (external, the `parseISODate`
parameter), raising 400 on `ValueError`. -/
def parseDOB (parseISODate : String → Option Nat) (dob : Option String) :
    Except HTTPError (Option Nat) :=
  match dob with
  | none => .ok none
  | some s =>
      if s = "" then .ok none
      else match parseISODate s with
        | some d => .ok (some d)
        | none => .error ⟨400, "Invalid date_of_birth format. Use YYYY-MM-DD"⟩

/-- The `if patient_data.assigned_doctor_id:` validation block of
`create_patient` (truthiness: `None` and `0` skip the check): true when the
check runs and finds no user with that id and role `"doctor"`. -/
def invalidDoctorAssignment (users : List UserRow) (assigned_doctor_id : Option Nat) :
    Bool :=
  match assigned_doctor_id with
  | none => false
  | some did =>
      did != 0 && (users.find? fun u => u.id == did && u.role == "doctor").isNone

/-- `POST /` of `patient_service/routers/patients.py` (`create_patient`).
Checks in source order: duplicate `medical_record_number` (400), ISO-date
parse (400), creator role (403), assigned-doctor validation (400); then
`db.add`/`db.commit`, then the best-effort `sync_patient_access` call whose
outcome (return value or exception) is discarded by `try`/`except`. -/
def create_patient (parseISODate : String → Option Nat)
    (current_user : UserRow) (patient_data : PatientCreate)
    (users : List UserRow) (db : List PatientRow) (new_id : Nat)
    (syncOutcome : SyncCall) :
    List PatientRow × Except HTTPError PatientRow :=
  match db.find? fun p =>
      p.medical_record_number == patient_data.medical_record_number with
  | some _ =>
      (db, .error ⟨400, "Patient with this medical record number already exists"⟩)
  | none =>
    match parseDOB parseISODate patient_data.date_of_birth with
    | .error e => (db, .error e)
    | .ok dob =>
      if current_user.role ≠ "doctor" ∧ current_user.role ≠ "admin" then
        (db, .error ⟨403, "Not authorized to create patients"⟩)
      else
        if invalidDoctorAssignment users patient_data.assigned_doctor_id then
          (db, .error ⟨400, "Invalid doctor assignment"⟩)
        else
          let db_patient : PatientRow :=
            { id := new_id
              name := patient_data.name
              date_of_birth := dob
              medical_record_number := patient_data.medical_record_number
              department := patient_data.department
              assigned_doctor_id := patient_data.assigned_doctor_id
              is_active := true }
          let _ := syncOutcome
          (db ++ [db_patient], .ok db_patient)

/-- `PUT /{patient_id}` (`update_patient`).  `authorize` abstracts
`oso.authorize(current_user, "write", patient)` (external policy engine). -/
def update_patient (parseISODate : String → Option Nat)
    (authorize : UserRow → PatientRow → Bool)
    (current_user : UserRow) (patient_id : Nat) (patient_update : PatientCreate)
    (db : List PatientRow) (syncOutcome : SyncCall) :
    List PatientRow × Except HTTPError PatientRow :=
  match db.find? fun p => p.id == patient_id with
  | none => (db, .error ⟨404, "Patient not found"⟩)
  | some patient =>
    if ¬ authorize current_user patient then
      (db, .error ⟨403, "Not authorized to update this patient"⟩)
    else
      let conflict : Bool :=
        if patient_update.medical_record_number ≠ patient.medical_record_number then
          (db.find? fun p =>
            p.medical_record_number == patient_update.medical_record_number &&
              p.id != patient_id).isSome
        else false
      if conflict then
        (db, .error ⟨400, "Patient with this medical record number already exists"⟩)
      else
        match parseDOB parseISODate patient_update.date_of_birth with
        | .error e => (db, .error e)
        | .ok dob =>
          let updated : PatientRow :=
            { patient with
              name := patient_update.name
              medical_record_number := patient_update.medical_record_number
              department := patient_update.department
              date_of_birth := dob
              assigned_doctor_id := patient_update.assigned_doctor_id }
          let _ := syncOutcome
          (db.map fun p => if p.id == patient_id then updated else p, .ok updated)

/-- `DELETE /{patient_id}` (`delete_patient`): soft delete via
`patient.is_active = False`; `remove_patient_access` outcome discarded. -/
def delete_patient (authorize : UserRow → PatientRow → Bool)
    (current_user : UserRow) (patient_id : Nat)
    (db : List PatientRow) (removeOutcome : SyncCall) :
    List PatientRow × Except HTTPError String :=
  match db.find? fun p => p.id == patient_id with
  | none => (db, .error ⟨404, "Patient not found"⟩)
  | some patient =>
    if ¬ authorize current_user patient then
      (db, .error ⟨403, "Not authorized to delete this patient"⟩)
    else
      let updated := { patient with is_active := false }
      let _ := removeOutcome
      (db.map fun p => if p.id == patient_id then updated else p,
        .ok "Patient deactivated successfully")

/-- `PUT /{user_id}` of `auth_service/routers/users.py` (`update_user`).
After `db.commit()`, the conditional `sync_user_role_change` /
`sync_department_change` calls sit in a `try`/`except` that logs and
continues, so their outcomes are discarded. -/
def update_user (current_user : UserRow) (user_id : Nat)
    (user_update : UserCreate) (db : List UserRow)
    (roleSyncOutcome deptSyncOutcome : SyncCall) :
    List UserRow × Except HTTPError UserRow :=
  match db.find? fun u => u.id == user_id with
  | none => (db, .error ⟨404, "User not found"⟩)
  | some user =>
    if current_user.role ≠ "admin" then
      (db, .error ⟨403, "Only administrators can update users"⟩)
    else
      let updated : UserRow :=
        { user with
          username := user_update.username
          email := user_update.email
          role := user_update.role
          department := user_update.department }
      let _ := if user.role ≠ updated.role then some roleSyncOutcome else none
      let _ :=
        if user.department ≠ updated.department then some deptSyncOutcome else none
      (db.map fun u => if u.id == user_id then updated else u, .ok updated)

end Portal

/-! ## `common/oso_sync.py`

Every function wraps its whole body (Oso client acquisition, DB session
queries, batch insert/delete calls) in `try: ... except Exception: log;
return False` and returns `True` at the end of the `try` block.  The external
work inside the `try` is abstracted as a `Work` value whose `.error` case
models a raised exception.  The return type `Except String Bool` exposes
whether a call can propagate an exception to its caller: a `.error` result
would model a raise.  `sync_admin_global_access` additionally has a guard
*before* its `try`: a non-admin user is logged and `False` is returned with
no exception involved. -/

namespace OsoSync

/-- Outcome of the external effects inside one `try` block. -/
abbrev Work := Except String Unit

def sync_admin_global_access (user_role : String) (work : Work) :
    Except String Bool :=
  if user_role ≠ "admin" then .ok false
  else
    match work with
    | .ok _ => .ok true
    | .error _ => .ok false

def remove_admin_global_access (work : Work) : Except String Bool :=
  match work with
  | .ok _ => .ok true
  | .error _ => .ok false

def sync_patient_access (work : Work) : Except String Bool :=
  match work with
  | .ok _ => .ok true
  | .error _ => .ok false

def remove_patient_access (work : Work) : Except String Bool :=
  match work with
  | .ok _ => .ok true
  | .error _ => .ok false

def sync_document_access (work : Work) : Except String Bool :=
  match work with
  | .ok _ => .ok true
  | .error _ => .ok false

def remove_document_access (work : Work) : Except String Bool :=
  match work with
  | .ok _ => .ok true
  | .error _ => .ok false

def sync_embedding_access (work : Work) : Except String Bool :=
  match work with
  | .ok _ => .ok true
  | .error _ => .ok false

def remove_embedding_access (work : Work) : Except String Bool :=
  match work with
  | .ok _ => .ok true
  | .error _ => .ok false

/-- `sync_user_role_change`: inside its `try` it conditionally calls
`remove_admin_global_access` / `sync_admin_global_access` (whose own
exceptions are swallowed by themselves — their results are ignored here,
exactly as in the source) and then runs a per-patient delete/insert loop
(`loopWork`) that can raise into this function's `except`. -/
def sync_user_role_change (user_role : String) (old_role : Option String)
    (clientWork : Work) (adminRemoveWork adminSyncWork : Work)
    (loopWork : Work) : Except String Bool :=
  match clientWork with
  | .error _ => .ok false
  | .ok _ =>
    let _ := if old_role = some "admin" ∧ user_role ≠ "admin" then
        some (remove_admin_global_access adminRemoveWork) else none
    let _ := if user_role = "admin" ∧ old_role ≠ some "admin" then
        some (sync_admin_global_access user_role adminSyncWork) else none
    match loopWork with
    | .error _ => .ok false
    | .ok _ => .ok true

def sync_department_change (work : Work) : Except String Bool :=
  match work with
  | .ok _ => .ok true
  | .error _ => .ok false

/-- `full_resync`: iterates the `sync_*` functions over all rows, ignoring
their boolean results; those functions swallow their own exceptions, so only
the DB session queries (`work`) can raise into this function's `except`. -/
def full_resync (work : Work) (subWorks : List Work) : Except String Bool :=
  match work with
  | .error _ => .ok false
  | .ok _ =>
    let _ := subWorks.map sync_patient_access
    .ok true

end OsoSync

/-! ## `langgraph/part-3/orchestrator_agent.py` : `route_query`

The routing LLM call is external; its response content is the `String`
input.  `json.loads` is external and abstracted as a parameter returning
`Except` (`.error` models any raised exception, caught by the bare
`except:`). -/

namespace Orchestrator

inductive JValue where
  | null : JValue
  | bool : Bool → JValue
  | num : ℚ → JValue
  | str : String → JValue
  | arr : List JValue → JValue
  | obj : List (String × JValue) → JValue

/-- The hardcoded fallback routing decision. -/
def fallback_routing : JValue :=
  .obj [("primary_agent", .str "supply_chain"),
        ("secondary_agents", .arr []),
        ("requires_collaboration", .bool false),
        ("execution_order", .arr [.str "supply_chain"])]

def route_query (json_loads : String → Except String JValue)
    (response_content : String) : JValue :=
  match json_loads response_content with
  | .ok routing_decision => routing_decision
  | .error _ => fallback_routing

end Orchestrator

/-! ## `simple_agent/streamlit_agent.py` : `create_schema_preserving_wrapper`

The inner coroutine `run_tool` reconnects an MCP client, looks the tool up by
name, and either returns the tool's result, returns a not-found message, or
catches its own exception and returns `"Error: {e}"`.  The synchronous
wrapper `sync_func` awaits it under `asyncio.wait_for(..., timeout=10.0)`
and catches `TimeoutError` and any other `Exception`.  The external
client/event-loop behaviour is abstracted as outcome values; `sync_func`
being a total function into `String` embeds that no modelled exception
escapes to the caller. -/

namespace MCPWrapper

/-- How the body of the inner coroutine `run_tool` resolves. -/
inductive InnerOutcome where
  | found : String → InnerOutcome
  | notFound : InnerOutcome
  | raised : String → InnerOutcome

/-- How `loop.run_until_complete(asyncio.wait_for(run_tool(), timeout=10.0))`
resolves: the coroutine completes, the 10-second timeout fires, or some other
exception is raised. -/
inductive AwaitOutcome where
  | completed : InnerOutcome → AwaitOutcome
  | timedOut : AwaitOutcome
  | raised : String → AwaitOutcome

def run_tool (tool_name : String) (o : InnerOutcome) : String :=
  match o with
  | .found result => result
  | .notFound => "Tool " ++ tool_name ++ " not found"
  | .raised e => "Error: " ++ e

def sync_func (tool_name : String) (a : AwaitOutcome) : String :=
  match a with
  | .completed o => run_tool tool_name o
  | .timedOut => "Error: Tool " ++ tool_name ++ " execution timed out"
  | .raised e => "Error executing " ++ tool_name ++ ": " ++ e

end MCPWrapper

/-! ## Theorems -/

theorem SimSearch.mem_of_mem_allowlistFilter
    (document_ids : Option (List Nat)) (l : List (SimSearch.EmbeddingRow × SimSearch.DocumentRow))
    (x : SimSearch.EmbeddingRow × SimSearch.DocumentRow)
    (h : x ∈ SimSearch.allowlistFilter document_ids l) : x ∈ l := by
  cases document_ids with
  | none => exact h
  | some ids =>
    simp only [SimSearch.allowlistFilter] at h
    by_cases he : ids.isEmpty
    · rwa [if_pos he] at h
    · rw [if_neg he] at h
      exact (List.mem_filter.mp h).1

theorem SimSearch.mem_allowlistFilter_nonempty
    (ids : List Nat) (hne : ids ≠ [])
    (l : List (SimSearch.EmbeddingRow × SimSearch.DocumentRow))
    (x : SimSearch.EmbeddingRow × SimSearch.DocumentRow)
    (h : x ∈ SimSearch.allowlistFilter (some ids) l) : x.1.document_id ∈ ids := by
  simp only [SimSearch.allowlistFilter] at h
  rw [if_neg (by simpa using hne)] at h
  have := (List.mem_filter.mp h).2
  simpa using this

theorem SimSearch.mem_thresholdFilter
    (dist : List ℚ → List ℚ → ℚ) (qvec : List ℚ) (thr : ℚ)
    (l : List (SimSearch.EmbeddingRow × SimSearch.DocumentRow))
    (x : SimSearch.EmbeddingRow × SimSearch.DocumentRow)
    (h : x ∈ SimSearch.thresholdFilter dist qvec thr l) :
    x ∈ l ∧ thr < SimSearch.rowSimilarity dist qvec x.1 := by
  unfold SimSearch.thresholdFilter at h
  have := List.mem_filter.mp h
  exact ⟨this.1, by simpa using this.2⟩

theorem SimSearch.mem_of_mem_search
    (dist : List ℚ → List ℚ → ℚ) (es : List SimSearch.EmbeddingRow)
    (ds : List SimSearch.DocumentRow) (query_embedding : List ℚ)
    (db_error : Bool) (limit : Nat) (similarity_threshold : ℚ)
    (document_ids : Option (List Nat)) (row : SimSearch.ResultRow)
    (hq : query_embedding ≠ []) (hdb : db_error = false)
    (hrow : row ∈ SimSearch.similarity_search dist es ds query_embedding
      db_error limit similarity_threshold document_ids) :
    ∃ pr, pr ∈ SimSearch.allowlistFilter document_ids
        (SimSearch.thresholdFilter dist query_embedding similarity_threshold
          (SimSearch.joinRows es ds)) ∧
      row = SimSearch.mkResultRow dist query_embedding pr := by
  unfold SimSearch.similarity_search at hrow
  rw [if_neg hq, hdb] at hrow
  simp only [Bool.false_eq_true, if_false] at hrow
  obtain ⟨pr, hpr, hmk⟩ := List.mem_map.mp hrow
  exact ⟨pr, (List.perm_insertionSort _ _).mem_iff.mp (List.mem_of_mem_take hpr),
    hmk.symm⟩

/-- Counterexample to claim C1 as stated: with `document_ids = []` (a
non-None list), the Python truthiness test `if document_ids:` skips the
allowlist clause entirely, so a row whose `document_id` (7) is not a member
of the empty allowlist is returned — the empty-list case does not return no
rows. -/
theorem C1_counterexample :
    SimSearch.similarity_search (fun _ _ => 0) [⟨1, 7, "c", 0, [1]⟩]
        [⟨7, "t", "ty", "dep", false⟩] [1] false 5 0 (some []) =
      [⟨7, "t", "c", "ty", "dep", 1, 1, 7, 0, "t", false, 1⟩] ∧
    (7 : Nat) ∉ ([] : List Nat) := by
  constructor
  · norm_num [SimSearch.similarity_search, SimSearch.allowlistFilter,
      SimSearch.thresholdFilter, SimSearch.joinRows, SimSearch.mkResultRow,
      SimSearch.rowSimilarity, List.insertionSort, List.orderedInsert]
  · simp

/-- Claim C1, amended: for every call to `similarity_search` with a non-None,
*non-empty* `document_ids` list, every row in the returned list has a
`document_id` that is a member of that list; an empty list is falsy in
Python, so it disables the allowlist clause instead of excluding all rows. -/
theorem C1_allowlist_filters_results
    (dist : List ℚ → List ℚ → ℚ) (es : List SimSearch.EmbeddingRow)
    (ds : List SimSearch.DocumentRow) (query_embedding : List ℚ)
    (db_error : Bool) (limit : Nat) (similarity_threshold : ℚ)
    (ids : List Nat) (hne : ids ≠ []) :
    ∀ row ∈ SimSearch.similarity_search dist es ds query_embedding db_error
        limit similarity_threshold (some ids),
      row.document_id ∈ ids := by
  intro row hrow
  by_cases hq : query_embedding = []
  · rw [SimSearch.similarity_search, if_pos hq] at hrow
    cases hrow
  by_cases hdb : db_error
  · rw [SimSearch.similarity_search, if_neg hq, if_pos hdb] at hrow
    cases hrow
  obtain ⟨pr, hpr, hmk⟩ := SimSearch.mem_of_mem_search dist es ds
    query_embedding db_error limit similarity_threshold (some ids) row hq
    (by simpa using hdb) hrow
  have := SimSearch.mem_allowlistFilter_nonempty ids hne _ pr hpr
  rw [hmk]
  exact this

/-- Witness for C1 (amended) with allowlist `[7]`: the single matching row is
returned and its `document_id` is in the allowlist. -/
theorem C1_allowlist_filters_results_witness :
    ([7] : List Nat) ≠ [] ∧
    (⟨7, "t", "c", "ty", "dep", 1, 1, 7, 0, "t", false, 1⟩ : SimSearch.ResultRow) ∈
      SimSearch.similarity_search (fun _ _ => 0) [⟨1, 7, "c", 0, [1]⟩]
        [⟨7, "t", "ty", "dep", false⟩] [1] false 5 0 (some [7]) ∧
    (7 : Nat) ∈ ([7] : List Nat) :=
  ⟨by decide,
   by
    norm_num [SimSearch.similarity_search, SimSearch.allowlistFilter,
      SimSearch.thresholdFilter, SimSearch.joinRows, SimSearch.mkResultRow,
      SimSearch.rowSimilarity, List.insertionSort, List.orderedInsert],
   C1_allowlist_filters_results (fun _ _ => 0) [⟨1, 7, "c", 0, [1]⟩]
     [⟨7, "t", "ty", "dep", false⟩] [1] false 5 0 [7] (by decide)
     ⟨7, "t", "c", "ty", "dep", 1, 1, 7, 0, "t", false, 1⟩
     (by
       norm_num [SimSearch.similarity_search, SimSearch.allowlistFilter,
         SimSearch.thresholdFilter, SimSearch.joinRows, SimSearch.mkResultRow,
         SimSearch.rowSimilarity, List.insertionSort, List.orderedInsert])⟩

/-- Claim C2: every call to `similarity_search` returns at most `limit` rows,
every returned row's similarity value is strictly greater than
`similarity_threshold`, and the rows are ordered by descending similarity. -/
theorem C2_similarity_search_contract
    (dist : List ℚ → List ℚ → ℚ) (es : List SimSearch.EmbeddingRow)
    (ds : List SimSearch.DocumentRow) (query_embedding : List ℚ)
    (db_error : Bool) (limit : Nat) (similarity_threshold : ℚ)
    (document_ids : Option (List Nat)) :
    (SimSearch.similarity_search dist es ds query_embedding db_error limit
      similarity_threshold document_ids).length ≤ limit ∧
    (∀ row ∈ SimSearch.similarity_search dist es ds query_embedding db_error
        limit similarity_threshold document_ids,
      similarity_threshold < row.similarity) ∧
    List.Pairwise (fun a b : SimSearch.ResultRow => b.similarity ≤ a.similarity)
      (SimSearch.similarity_search dist es ds query_embedding db_error limit
        similarity_threshold document_ids) := by
  by_cases hq : query_embedding = []
  · rw [SimSearch.similarity_search, if_pos hq]
    exact ⟨Nat.zero_le _, by simp, List.Pairwise.nil⟩
  by_cases hdb : db_error
  · rw [SimSearch.similarity_search, if_neg hq, if_pos hdb]
    exact ⟨Nat.zero_le _, by simp, List.Pairwise.nil⟩
  have hdb' : db_error = false := by simpa using hdb
  refine ⟨?_, ?_, ?_⟩
  · rw [SimSearch.similarity_search, if_neg hq, hdb']
    simp only [Bool.false_eq_true, if_false, List.length_map]
    simp [List.length_take]
  · intro row hrow
    obtain ⟨pr, hpr, hmk⟩ := SimSearch.mem_of_mem_search dist es ds
      query_embedding db_error limit similarity_threshold document_ids row hq
      hdb' hrow
    have h₁ := SimSearch.mem_of_mem_allowlistFilter document_ids _ pr hpr
    have h₂ := (SimSearch.mem_thresholdFilter dist query_embedding
      similarity_threshold _ pr h₁).2
    rw [hmk]
    exact h₂
  · rw [SimSearch.similarity_search, if_neg hq, hdb']
    simp only [Bool.false_eq_true, if_false]
    refine (List.pairwise_map).mpr ?_
    have hs : List.Pairwise (SimSearch.simGE dist query_embedding)
        (((SimSearch.allowlistFilter document_ids
          (SimSearch.thresholdFilter dist query_embedding similarity_threshold
            (SimSearch.joinRows es ds))).insertionSort
          (SimSearch.simGE dist query_embedding)).take limit) :=
      List.Pairwise.sublist (List.take_sublist _ _)
        (List.sorted_insertionSort _ _)
    exact hs.imp fun h => h

/-- Witness for C2 at a concrete one-row table with no allowlist. -/
theorem C2_similarity_search_contract_witness :
    (SimSearch.similarity_search (fun _ _ => 0) [⟨1, 7, "c", 0, [1]⟩]
      [⟨7, "t", "ty", "dep", false⟩] [1] false 5 0 none).length ≤ 5 ∧
    (0 : ℚ) < (⟨7, "t", "c", "ty", "dep", 1, 1, 7, 0, "t", false, 1⟩ :
      SimSearch.ResultRow).similarity :=
  ⟨(C2_similarity_search_contract (fun _ _ => 0) [⟨1, 7, "c", 0, [1]⟩]
      [⟨7, "t", "ty", "dep", false⟩] [1] false 5 0 none).1,
   (C2_similarity_search_contract (fun _ _ => 0) [⟨1, 7, "c", 0, [1]⟩]
      [⟨7, "t", "ty", "dep", false⟩] [1] false 5 0 none).2.1
     ⟨7, "t", "c", "ty", "dep", 1, 1, 7, 0, "t", false, 1⟩
     (by
       norm_num [SimSearch.similarity_search, SimSearch.allowlistFilter,
         SimSearch.thresholdFilter, SimSearch.joinRows, SimSearch.mkResultRow,
         SimSearch.rowSimilarity, List.insertionSort, List.orderedInsert])⟩

/-- Claim C5: for every user query, if parsing the routing LLM's response as
JSON raises, `route_query` returns exactly the fallback routing decision
`{"primary_agent": "supply_chain", "secondary_agents": [],
"requires_collaboration": false, "execution_order": ["supply_chain"]}`, and
otherwise it returns the parsed JSON object unmodified. -/
theorem C5_route_query_fallback
    (json_loads : String → Except String Orchestrator.JValue)
    (response_content : String) :
    (∀ e, json_loads response_content = .error e →
      Orchestrator.route_query json_loads response_content =
        Orchestrator.fallback_routing) ∧
    (∀ v, json_loads response_content = .ok v →
      Orchestrator.route_query json_loads response_content = v) := by
  constructor
  · intro e he
    simp [Orchestrator.route_query, he]
  · intro v hv
    simp [Orchestrator.route_query, hv]

/-- Witness for C5 at concrete inputs: a parser that raises yields the
fallback, a parser that succeeds yields its value unmodified. -/
theorem C5_route_query_fallback_witness :
    Orchestrator.route_query (fun _ => .error "boom") "query" =
      Orchestrator.fallback_routing ∧
    Orchestrator.route_query (fun _ => .ok (.str "decision")) "query" =
      .str "decision" :=
  ⟨(C5_route_query_fallback (fun _ => .error "boom") "query").1 "boom" rfl,
   (C5_route_query_fallback (fun _ => .ok (.str "decision")) "query").2
     (.str "decision") rfl⟩

/-- Counterexample to claim C6 as stated: `sync_admin_global_access` returns
`False` for a non-admin user even though no exception is raised during its
work (the guard `if user.role != "admin"` precedes the `try` block), so it is
not the case that every listed function "returns True when no exception
occurs". -/
theorem C6_counterexample :
    OsoSync.sync_admin_global_access "nurse" (.ok ()) = .ok false := rfl

/-- Claim C6, amended: every fact-synchronization function in `oso_sync`
returns (never raises — each result is an `.ok`), returns `False` whenever an
exception is raised during its work, and returns `True` when no exception
occurs — except `sync_admin_global_access`, which also returns `False`
without any exception when the user's role is not `"admin"` (its result on
exception-free work is `role == "admin"`). -/
theorem C6_oso_sync_error_handling :
    (∀ role work, ∃ b, OsoSync.sync_admin_global_access role work = .ok b) ∧
    (∀ role e, OsoSync.sync_admin_global_access role (.error e) = .ok false) ∧
    (∀ role, OsoSync.sync_admin_global_access role (.ok ()) =
      .ok (role == "admin")) ∧
    (∀ work, ∃ b, OsoSync.remove_admin_global_access work = .ok b) ∧
    (∀ e, OsoSync.remove_admin_global_access (.error e) = .ok false) ∧
    OsoSync.remove_admin_global_access (.ok ()) = .ok true ∧
    (∀ work, ∃ b, OsoSync.sync_patient_access work = .ok b) ∧
    (∀ e, OsoSync.sync_patient_access (.error e) = .ok false) ∧
    OsoSync.sync_patient_access (.ok ()) = .ok true ∧
    (∀ work, ∃ b, OsoSync.remove_patient_access work = .ok b) ∧
    (∀ e, OsoSync.remove_patient_access (.error e) = .ok false) ∧
    OsoSync.remove_patient_access (.ok ()) = .ok true ∧
    (∀ work, ∃ b, OsoSync.sync_document_access work = .ok b) ∧
    (∀ e, OsoSync.sync_document_access (.error e) = .ok false) ∧
    OsoSync.sync_document_access (.ok ()) = .ok true ∧
    (∀ work, ∃ b, OsoSync.remove_document_access work = .ok b) ∧
    (∀ e, OsoSync.remove_document_access (.error e) = .ok false) ∧
    OsoSync.remove_document_access (.ok ()) = .ok true ∧
    (∀ work, ∃ b, OsoSync.sync_embedding_access work = .ok b) ∧
    (∀ e, OsoSync.sync_embedding_access (.error e) = .ok false) ∧
    OsoSync.sync_embedding_access (.ok ()) = .ok true ∧
    (∀ work, ∃ b, OsoSync.remove_embedding_access work = .ok b) ∧
    (∀ e, OsoSync.remove_embedding_access (.error e) = .ok false) ∧
    OsoSync.remove_embedding_access (.ok ()) = .ok true ∧
    (∀ role old_role cw arw asw lw, ∃ b,
      OsoSync.sync_user_role_change role old_role cw arw asw lw = .ok b) ∧
    (∀ role old_role e arw asw lw,
      OsoSync.sync_user_role_change role old_role (.error e) arw asw lw =
        .ok false) ∧
    (∀ role old_role arw asw e,
      OsoSync.sync_user_role_change role old_role (.ok ()) arw asw (.error e) =
        .ok false) ∧
    (∀ role old_role arw asw,
      OsoSync.sync_user_role_change role old_role (.ok ()) arw asw (.ok ()) =
        .ok true) ∧
    (∀ work, ∃ b, OsoSync.sync_department_change work = .ok b) ∧
    (∀ e, OsoSync.sync_department_change (.error e) = .ok false) ∧
    OsoSync.sync_department_change (.ok ()) = .ok true ∧
    (∀ work subWorks, ∃ b, OsoSync.full_resync work subWorks = .ok b) ∧
    (∀ e subWorks, OsoSync.full_resync (.error e) subWorks = .ok false) ∧
    (∀ subWorks, OsoSync.full_resync (.ok ()) subWorks = .ok true) := by
  refine ⟨?_, ?_, ?_, ?_, fun _ => rfl, rfl, ?_, fun _ => rfl, rfl,
    ?_, fun _ => rfl, rfl, ?_, fun _ => rfl, rfl, ?_, fun _ => rfl, rfl,
    ?_, fun _ => rfl, rfl, ?_, fun _ => rfl, rfl,
    ?_, fun _ _ _ _ _ _ => rfl, fun _ _ _ _ _ => rfl, fun _ _ _ _ => rfl,
    ?_, fun _ => rfl, rfl, ?_, fun _ _ => rfl, fun _ => rfl⟩
  · intro role work
    unfold OsoSync.sync_admin_global_access
    by_cases h : role = "admin" <;> cases work <;> simp [h]
  · intro role e
    unfold OsoSync.sync_admin_global_access
    by_cases h : role = "admin" <;> simp [h]
  · intro role
    unfold OsoSync.sync_admin_global_access
    by_cases h : role = "admin" <;> simp [h]
  all_goals
    first
    | (intro w; cases w <;> exact ⟨_, rfl⟩)
    | (intro r o cw arw asw lw; cases cw <;> cases lw <;> exact ⟨_, rfl⟩)
    | (intro w s; cases w <;> exact ⟨_, rfl⟩)

theorem ChunkText.chunkLoop_eq_startsFrom (tokens : List Nat)
    (size overlap : Nat) (hov : overlap < size) :
    ∀ (fuel start : Nat), tokens.length - start < fuel →
      ChunkText.chunkLoop tokens size overlap start fuel =
        some ((ChunkText.startsFrom tokens.length size overlap start).map
          fun s => (tokens.drop s).take size) := by
  intro fuel
  induction fuel with
  | zero => intro start h; omega
  | succ fuel ih =>
    intro start hf
    simp only [ChunkText.chunkLoop]
    by_cases hs : start < tokens.length
    · rw [if_pos hs]
      by_cases he : tokens.length ≤ start + size
      · rw [if_pos he, ChunkText.startsFrom, dif_pos ⟨hov, hs⟩, if_pos he]
        simp
      · rw [if_neg he]
        have harith : start + size - overlap = start + (size - overlap) := by
          omega
        rw [harith, ih (start + (size - overlap)) (by omega)]
        conv_rhs => rw [ChunkText.startsFrom, dif_pos ⟨hov, hs⟩, if_neg he]
        simp
    · rw [if_neg hs, ChunkText.startsFrom, dif_neg fun hc => hs hc.2]
      simp

theorem ChunkText.startsFrom_head (n size overlap start : Nat)
    (hov : overlap < size) (hs : start < n) :
    (ChunkText.startsFrom n size overlap start).get? 0 = some start := by
  rw [ChunkText.startsFrom, dif_pos ⟨hov, hs⟩]
  by_cases he : n ≤ start + size
  · rw [if_pos he]; rfl
  · rw [if_neg he]; rfl

theorem ChunkText.startsFrom_consecutive (n size overlap : Nat)
    (hov : overlap < size) :
    ∀ (start i a b : Nat),
      (ChunkText.startsFrom n size overlap start).get? i = some a →
      (ChunkText.startsFrom n size overlap start).get? (i + 1) = some b →
      b + overlap = a + size := by
  intro start i
  induction i generalizing start with
  | zero =>
    intro a b ha hb
    rw [ChunkText.startsFrom] at ha hb
    by_cases hg : overlap < size ∧ start < n
    · rw [dif_pos hg] at ha hb
      by_cases he : n ≤ start + size
      · rw [if_pos he] at hb
        simp at hb
      · rw [if_neg he] at ha hb
        simp only [List.get?_cons_zero, Option.some.injEq] at ha
        simp only [List.get?_cons_succ] at hb
        by_cases hs2 : start + (size - overlap) < n
        · rw [ChunkText.startsFrom_head n size overlap _ hov hs2] at hb
          injection hb with hb
          omega
        · rw [ChunkText.startsFrom, dif_neg fun hc => hs2 hc.2] at hb
          simp at hb
    · rw [dif_neg hg] at ha
      simp at ha
  | succ i ih =>
    intro a b ha hb
    rw [ChunkText.startsFrom] at ha hb
    by_cases hg : overlap < size ∧ start < n
    · rw [dif_pos hg] at ha hb
      by_cases he : n ≤ start + size
      · rw [if_pos he] at ha
        simp at ha
      · rw [if_neg he] at ha hb
        simp only [List.get?_cons_succ] at ha hb
        exact ih _ a b ha hb
    · rw [dif_neg hg] at ha
      simp at ha

/-- Claim C9: for every input text and every parameter pair with
`0 < chunk_overlap < chunk_size`, `chunk_text` terminates (returns `some`)
and produces the chunks `tokens[s : s + chunk_size]` for the start positions
given by `startsFrom`: every chunk holds at most `chunk_size` tokens, the
first chunk starts at token 0, each subsequent chunk's start position is
exactly `chunk_overlap` tokens before the previous chunk's end
(`b + chunk_overlap = a + chunk_size`), and the empty token sequence yields
the empty list. -/
theorem C9_chunk_text_spec (tokens : List Nat) (chunk_size chunk_overlap : Nat)
    (h₁ : 0 < chunk_overlap) (h₂ : chunk_overlap < chunk_size) :
    ∃ L, ChunkText.chunk_text tokens chunk_size chunk_overlap = some L ∧
      L = (ChunkText.startsFrom tokens.length chunk_size chunk_overlap 0).map
        (fun s => (tokens.drop s).take chunk_size) ∧
      (∀ c ∈ L, c.length ≤ chunk_size) ∧
      (tokens = [] → L = []) ∧
      (tokens ≠ [] →
        (ChunkText.startsFrom tokens.length chunk_size chunk_overlap 0).get? 0 =
          some 0) ∧
      (∀ i a b,
        (ChunkText.startsFrom tokens.length chunk_size chunk_overlap 0).get? i =
          some a →
        (ChunkText.startsFrom tokens.length chunk_size chunk_overlap 0).get?
          (i + 1) = some b →
        b + chunk_overlap = a + chunk_size) := by
  refine ⟨_, ChunkText.chunkLoop_eq_startsFrom tokens chunk_size chunk_overlap
      h₂ (tokens.length + 1) 0 (by omega), rfl, ?_, ?_, ?_, ?_⟩
  · intro c hc
    obtain ⟨s, _, hcs⟩ := List.mem_map.mp hc
    rw [← hcs]
    simp [List.length_take]
  · intro ht
    subst ht
    rw [ChunkText.startsFrom, dif_neg]
    · rfl
    · rintro ⟨_, hcon⟩
      simp at hcon
  · intro ht
    refine ChunkText.startsFrom_head _ _ _ _ h₂ ?_
    cases tokens with
    | nil => exact absurd rfl ht
    | cons t ts => simp
  · exact fun i a b => ChunkText.startsFrom_consecutive tokens.length
      chunk_size chunk_overlap h₂ 0 i a b

/-- Witness for C9 on five tokens with `chunk_size = 3`, `chunk_overlap = 1`
(chunks `[10, 11, 12]` and `[12, 13, 14]`). -/
theorem C9_chunk_text_spec_witness :
    0 < 1 ∧ 1 < 3 ∧
    ∃ L, ChunkText.chunk_text [10, 11, 12, 13, 14] 3 1 = some L ∧
      L = (ChunkText.startsFrom 5 3 1 0).map
        (fun s => (([10, 11, 12, 13, 14] : List Nat).drop s).take 3) ∧
      (∀ c ∈ L, c.length ≤ 3) ∧
      (([10, 11, 12, 13, 14] : List Nat) = [] → L = []) ∧
      (([10, 11, 12, 13, 14] : List Nat) ≠ [] →
        (ChunkText.startsFrom 5 3 1 0).get? 0 = some 0) ∧
      (∀ i a b, (ChunkText.startsFrom 5 3 1 0).get? i = some a →
        (ChunkText.startsFrom 5 3 1 0).get? (i + 1) = some b →
        b + 1 = a + 3) :=
  ⟨by decide, by decide,
   C9_chunk_text_spec [10, 11, 12, 13, 14] 3 1 (by decide) (by decide)⟩

theorem Combine.combineParts_spec (max_tokens : ℚ) :
    ∀ (l : List Combine.SearchResult) (cur : ℚ),
      ∃ k, Combine.combineParts l max_tokens cur =
          (l.take k).map Combine.contextPart ∧
        (cur + Combine.estSum (l.take k) ≤ max_tokens ∨ k = 0) ∧
        (k = l.length ∨ ∃ r, l.get? k = some r ∧
          max_tokens < cur + Combine.estSum (l.take k) +
            Combine.estTokens r.content_chunk) := by
  intro l
  induction l with
  | nil =>
    intro cur
    exact ⟨0, rfl, Or.inr rfl, Or.inl rfl⟩
  | cons r rest ih =>
    intro cur
    by_cases hover : max_tokens < cur + Combine.estTokens r.content_chunk
    · refine ⟨0, ?_, Or.inr rfl, Or.inr ⟨r, rfl, ?_⟩⟩
      · simp [Combine.combineParts, hover]
      · simpa [Combine.estSum] using hover
    · obtain ⟨k, h1, h2, h3⟩ := ih (cur + Combine.estTokens r.content_chunk)
      refine ⟨k + 1, ?_, ?_, ?_⟩
      · simp [Combine.combineParts, hover, h1]
      · left
        rcases h2 with h2 | h2
        · rw [List.take_succ_cons]
          simpa [Combine.estSum, add_assoc] using h2
        · subst h2
          simpa [Combine.estSum] using not_lt.mp hover
      · rcases h3 with h3 | h3
        · left
          simp [h3]
        · right
          obtain ⟨r₂, hr₂, hlt⟩ := h3
          refine ⟨r₂, by simpa using hr₂, ?_⟩
          rw [List.take_succ_cons]
          simpa [Combine.estSum, add_assoc] using hlt

/-- Counterexample to claim C10 as stated: the claim quantifies over *every*
`max_tokens` bound, but with `max_tokens = -1` the loop includes no chunk at
all, and the total estimated token count of the included chunks — the empty
sum 0 — exceeds `max_tokens`. -/
theorem C10_counterexample :
    ¬ ∃ k, Combine.combineParts [⟨"note", "t"⟩] (-1) 0 =
        (([⟨"note", "t"⟩] : List Combine.SearchResult).take k).map
          Combine.contextPart ∧
      Combine.estSum (([⟨"note", "t"⟩] : List Combine.SearchResult).take k) ≤
        (-1 : ℚ) := by
  rintro ⟨k, h1, h2⟩
  have hest : (0 : ℚ) ≤ Combine.estTokens "note" := by
    rw [Combine.estTokens]
    positivity
  have hparts : Combine.combineParts [⟨"note", "t"⟩] (-1) 0 = [] := by
    rw [Combine.combineParts, if_pos (by linarith)]
  cases k with
  | zero =>
    rw [List.take_zero] at h2
    simp [Combine.estSum] at h2
    linarith
  | succ n =>
    rw [hparts] at h1
    simp [List.take_succ_cons] at h1

/-- Claim C10, amended: for every list of search results and every
*nonnegative* `max_tokens` bound, `combine_chunks_for_context` includes a
prefix of the results in their given order, stops at the first chunk whose
estimated token count (1.3 times its whitespace-word count) would push the
running total above `max_tokens`, and the total estimated token count of all
included chunks does not exceed `max_tokens`.  (With a negative bound the
function still includes no chunk; only the "total ≤ bound" clause needs the
bound to be nonnegative, since the empty total is 0.) -/
theorem C10_combine_prefix_budget (search_results : List Combine.SearchResult)
    (max_tokens : ℚ) (hm : 0 ≤ max_tokens) :
    ∃ k, Combine.combineParts search_results max_tokens 0 =
        (search_results.take k).map Combine.contextPart ∧
      Combine.combine_chunks_for_context search_results max_tokens =
        String.intercalate "\n"
          ((search_results.take k).map Combine.contextPart) ∧
      Combine.estSum (search_results.take k) ≤ max_tokens ∧
      (k = search_results.length ∨ ∃ r, search_results.get? k = some r ∧
        max_tokens < Combine.estSum (search_results.take k) +
          Combine.estTokens r.content_chunk) := by
  obtain ⟨k, h1, h2, h3⟩ :=
    Combine.combineParts_spec max_tokens search_results 0
  refine ⟨k, h1, ?_, ?_, ?_⟩
  · rw [Combine.combine_chunks_for_context, h1]
  · rcases h2 with h2 | h2
    · linarith
    · subst h2
      simpa [Combine.estSum] using hm
  · simpa using h3

/-- Witness for C10 (amended): two one-word chunks under a budget of 2
estimated tokens — only the first fits (1.3 + 1.3 > 2). -/
theorem C10_combine_prefix_budget_witness :
    (0 : ℚ) ≤ 2 ∧
    ∃ k, Combine.combineParts [⟨"alpha", "t"⟩, ⟨"beta", "u"⟩] 2 0 =
        (([⟨"alpha", "t"⟩, ⟨"beta", "u"⟩] :
          List Combine.SearchResult).take k).map Combine.contextPart ∧
      Combine.combine_chunks_for_context [⟨"alpha", "t"⟩, ⟨"beta", "u"⟩] 2 =
        String.intercalate "\n"
          ((([⟨"alpha", "t"⟩, ⟨"beta", "u"⟩] :
            List Combine.SearchResult).take k).map Combine.contextPart) ∧
      Combine.estSum (([⟨"alpha", "t"⟩, ⟨"beta", "u"⟩] :
        List Combine.SearchResult).take k) ≤ 2 ∧
      (k = 2 ∨ ∃ r, ([⟨"alpha", "t"⟩, ⟨"beta", "u"⟩] :
          List Combine.SearchResult).get? k = some r ∧
        2 < Combine.estSum (([⟨"alpha", "t"⟩, ⟨"beta", "u"⟩] :
          List Combine.SearchResult).take k) +
          Combine.estTokens r.content_chunk) :=
  ⟨by norm_num,
   C10_combine_prefix_budget [⟨"alpha", "t"⟩, ⟨"beta", "u"⟩] 2 (by norm_num)⟩

/-- Claim C3: the patient store preserves medical-record-number uniqueness:
when a patient with the requested `medical_record_number` already exists,
`create_patient` raises HTTP 400 without adding a row, and `update_patient`
raises HTTP 400 without modifying the row when the new
`medical_record_number` belongs to a different patient. -/
theorem C3_mrn_uniqueness_guard
    (parseISODate : String → Option Nat)
    (authorize : Portal.UserRow → Portal.PatientRow → Bool)
    (current_user : Portal.UserRow) (patient_data : Portal.PatientCreate)
    (users : List Portal.UserRow) (db : List Portal.PatientRow)
    (new_id patient_id : Nat) (patient_update : Portal.PatientCreate)
    (s₁ s₂ : Portal.SyncCall) :
    ((∃ q, db.find?
        (fun p => p.medical_record_number == patient_data.medical_record_number) =
          some q) →
      Portal.create_patient parseISODate current_user patient_data users db
          new_id s₁ =
        (db, .error ⟨400, "Patient with this medical record number already exists"⟩)) ∧
    (∀ patient, db.find? (fun p => p.id == patient_id) = some patient →
      authorize current_user patient = true →
      patient_update.medical_record_number ≠ patient.medical_record_number →
      (∃ q, db.find?
        (fun p => p.medical_record_number == patient_update.medical_record_number &&
          p.id != patient_id) = some q) →
      Portal.update_patient parseISODate authorize current_user patient_id
          patient_update db s₂ =
        (db, .error ⟨400, "Patient with this medical record number already exists"⟩)) := by
  constructor
  · rintro ⟨q, hq⟩
    simp [Portal.create_patient, hq]
  · rintro patient hp ha hne ⟨q, hq⟩
    simp [Portal.update_patient, hp, ha, hne, hq]

/-- Witness for C3: a duplicate-MRN create and a conflicting-MRN update both
return 400 leaving the table unchanged. -/
theorem C3_mrn_uniqueness_guard_witness :
    Portal.create_patient (fun _ => none) ⟨9, "d", "d@x", "h", "doctor", none, true⟩
        ⟨"Carol", "MRN1", none, none, none⟩ []
        [⟨1, "Alice", none, "MRN1", none, none, true⟩] 3 (.ok true) =
      ([⟨1, "Alice", none, "MRN1", none, none, true⟩],
       .error ⟨400, "Patient with this medical record number already exists"⟩) ∧
    Portal.update_patient (fun _ => none) (fun _ _ => true)
        ⟨9, "d", "d@x", "h", "doctor", none, true⟩ 2
        ⟨"Bob", "MRN1", none, none, none⟩
        [⟨1, "Alice", none, "MRN1", none, none, true⟩,
         ⟨2, "Bob", none, "MRN2", none, none, true⟩] (.ok true) =
      ([⟨1, "Alice", none, "MRN1", none, none, true⟩,
        ⟨2, "Bob", none, "MRN2", none, none, true⟩],
       .error ⟨400, "Patient with this medical record number already exists"⟩) := by
  constructor
  · exact (C3_mrn_uniqueness_guard (fun _ => none)
      (fun _ _ => true) ⟨9, "d", "d@x", "h", "doctor", none, true⟩
      ⟨"Carol", "MRN1", none, none, none⟩ []
      [⟨1, "Alice", none, "MRN1", none, none, true⟩] 3 0
      ⟨"Bob", "MRN1", none, none, none⟩ (.ok true) (.ok true)).1
      ⟨⟨1, "Alice", none, "MRN1", none, none, true⟩, rfl⟩
  · exact (C3_mrn_uniqueness_guard (fun _ => none)
      (fun _ _ => true) ⟨9, "d", "d@x", "h", "doctor", none, true⟩
      ⟨"Carol", "MRN1", none, none, none⟩ []
      [⟨1, "Alice", none, "MRN1", none, none, true⟩,
       ⟨2, "Bob", none, "MRN2", none, none, true⟩] 3 2
      ⟨"Bob", "MRN1", none, none, none⟩ (.ok true) (.ok true)).2
      ⟨2, "Bob", none, "MRN2", none, none, true⟩ rfl rfl (by decide)
      ⟨⟨1, "Alice", none, "MRN1", none, none, true⟩, rfl⟩

/-- Claim C4: for every user-update, patient-create or patient-update request
whose database commit succeeds, the result of the subsequent
authorization-fact synchronization call (normal `True`/`False` return or
raised exception) does not roll back the committed change and does not fail
the request: the endpoint returns the updated entity and the committed table
state, for every sync outcome. -/
theorem C4_sync_failure_best_effort
    (current_user : Portal.UserRow) (user_id : Nat)
    (user_update : Portal.UserCreate) (udb : List Portal.UserRow)
    (parseISODate : String → Option Nat) (creator : Portal.UserRow)
    (patient_data : Portal.PatientCreate) (users : List Portal.UserRow)
    (pdb : List Portal.PatientRow) (new_id : Nat)
    (authorize : Portal.UserRow → Portal.PatientRow → Bool)
    (patient_id : Nat) (patient_update : Portal.PatientCreate)
    (pdb₂ : List Portal.PatientRow) :
    (∀ user, udb.find? (fun u => u.id == user_id) = some user →
      current_user.role = "admin" →
      ∀ roleSync deptSync : Portal.SyncCall,
        Portal.update_user current_user user_id user_update udb
            roleSync deptSync =
          (udb.map fun u => if u.id == user_id then
              { user with
                username := user_update.username
                email := user_update.email
                role := user_update.role
                department := user_update.department } else u,
           .ok { user with
                username := user_update.username
                email := user_update.email
                role := user_update.role
                department := user_update.department })) ∧
    (∀ dob, pdb.find?
        (fun p => p.medical_record_number == patient_data.medical_record_number) =
          none →
      Portal.parseDOB parseISODate patient_data.date_of_birth = .ok dob →
      (creator.role = "doctor" ∨ creator.role = "admin") →
      Portal.invalidDoctorAssignment users patient_data.assigned_doctor_id = false →
      ∀ sync : Portal.SyncCall,
        Portal.create_patient parseISODate creator patient_data users pdb
            new_id sync =
          (pdb ++ [⟨new_id, patient_data.name, dob,
              patient_data.medical_record_number, patient_data.department,
              patient_data.assigned_doctor_id, true⟩],
           .ok ⟨new_id, patient_data.name, dob,
              patient_data.medical_record_number, patient_data.department,
              patient_data.assigned_doctor_id, true⟩)) ∧
    (∀ patient dob, pdb₂.find? (fun p => p.id == patient_id) = some patient →
      authorize current_user patient = true →
      (patient_update.medical_record_number = patient.medical_record_number ∨
        pdb₂.find? (fun p =>
          p.medical_record_number == patient_update.medical_record_number &&
            p.id != patient_id) = none) →
      Portal.parseDOB parseISODate patient_update.date_of_birth = .ok dob →
      ∀ sync : Portal.SyncCall,
        Portal.update_patient parseISODate authorize current_user patient_id
            patient_update pdb₂ sync =
          (pdb₂.map fun p => if p.id == patient_id then
              { patient with
                name := patient_update.name
                medical_record_number := patient_update.medical_record_number
                department := patient_update.department
                date_of_birth := dob
                assigned_doctor_id := patient_update.assigned_doctor_id } else p,
           .ok { patient with
                name := patient_update.name
                medical_record_number := patient_update.medical_record_number
                department := patient_update.department
                date_of_birth := dob
                assigned_doctor_id := patient_update.assigned_doctor_id })) := by
  refine ⟨?_, ?_, ?_⟩
  · intro user hu hrole roleSync deptSync
    simp [Portal.update_user, hu, hrole]
  · intro dob h₁ h₂ h₃ h₄ sync
    have hrole : ¬ (creator.role ≠ "doctor" ∧ creator.role ≠ "admin") := by
      rcases h₃ with h | h <;> simp [h]
    simp [Portal.create_patient, h₁, h₂, h₄, hrole]
  · intro patient dob hp ha hnc hdob sync
    rcases hnc with h | h
    · simp [Portal.update_patient, hp, ha, hdob, h]
    · by_cases hmrn :
        patient_update.medical_record_number = patient.medical_record_number
      · simp [Portal.update_patient, hp, ha, hdob, hmrn]
      · simp [Portal.update_patient, hp, ha, hdob, hmrn, h]

/-- Witness for C4: the three endpoints return the committed entity for a
raising sync, a `False`-returning sync, and a `True`-returning sync alike. -/
theorem C4_sync_failure_best_effort_witness :
    (∀ roleSync ∈ [Except.error "oso down", .ok false, .ok true],
      ∀ deptSync ∈ [Except.error "oso down", .ok false, .ok true],
      Portal.update_user ⟨9, "root", "r@x", "h", "admin", none, true⟩ 1
          ⟨"alice2", "a2@x", "nurse", some "ICU", "pw"⟩
          [⟨1, "alice", "a@x", "h", "doctor", none, true⟩] roleSync deptSync =
        ([⟨1, "alice2", "a2@x", "h", "nurse", some "ICU", true⟩],
         .ok ⟨1, "alice2", "a2@x", "h", "nurse", some "ICU", true⟩)) ∧
    (∀ sync ∈ [Except.error "oso down", .ok false, .ok true],
      Portal.create_patient (fun _ => none)
          ⟨9, "root", "r@x", "h", "admin", none, true⟩
          ⟨"Alice", "MRN1", none, none, none⟩ [] [] 1 sync =
        ([⟨1, "Alice", none, "MRN1", none, none, true⟩],
         .ok ⟨1, "Alice", none, "MRN1", none, none, true⟩)) ∧
    (∀ sync ∈ [Except.error "oso down", .ok false, .ok true],
      Portal.update_patient (fun _ => none) (fun _ _ => true)
          ⟨9, "root", "r@x", "h", "admin", none, true⟩ 1
          ⟨"Alice2", "MRN9", none, none, none⟩
          [⟨1, "Alice", none, "MRN1", none, none, true⟩] sync =
        ([⟨1, "Alice2", none, "MRN9", none, none, true⟩],
         .ok ⟨1, "Alice2", none, "MRN9", none, none, true⟩)) := by
  refine ⟨?_, ?_, ?_⟩
  · intro roleSync _ deptSync _
    exact (C4_sync_failure_best_effort
      ⟨9, "root", "r@x", "h", "admin", none, true⟩ 1
      ⟨"alice2", "a2@x", "nurse", some "ICU", "pw"⟩
      [⟨1, "alice", "a@x", "h", "doctor", none, true⟩]
      (fun _ => none) ⟨9, "root", "r@x", "h", "admin", none, true⟩
      ⟨"Alice", "MRN1", none, none, none⟩ [] [] 1
      (fun _ _ => true) 1 ⟨"Alice2", "MRN9", none, none, none⟩
      [⟨1, "Alice", none, "MRN1", none, none, true⟩]).1
      ⟨1, "alice", "a@x", "h", "doctor", none, true⟩ rfl rfl roleSync deptSync
  · intro sync _
    exact (C4_sync_failure_best_effort
      ⟨9, "root", "r@x", "h", "admin", none, true⟩ 1
      ⟨"alice2", "a2@x", "nurse", some "ICU", "pw"⟩
      [⟨1, "alice", "a@x", "h", "doctor", none, true⟩]
      (fun _ => none) ⟨9, "root", "r@x", "h", "admin", none, true⟩
      ⟨"Alice", "MRN1", none, none, none⟩ [] [] 1
      (fun _ _ => true) 1 ⟨"Alice2", "MRN9", none, none, none⟩
      [⟨1, "Alice", none, "MRN1", none, none, true⟩]).2.1
      none rfl rfl (Or.inr rfl) rfl sync
  · intro sync _
    exact (C4_sync_failure_best_effort
      ⟨9, "root", "r@x", "h", "admin", none, true⟩ 1
      ⟨"alice2", "a2@x", "nurse", some "ICU", "pw"⟩
      [⟨1, "alice", "a@x", "h", "doctor", none, true⟩]
      (fun _ => none) ⟨9, "root", "r@x", "h", "admin", none, true⟩
      ⟨"Alice", "MRN1", none, none, none⟩ [] [] 1
      (fun _ _ => true) 1 ⟨"Alice2", "MRN9", none, none, none⟩
      [⟨1, "Alice", none, "MRN1", none, none, true⟩]).2.2
      ⟨1, "Alice", none, "MRN1", none, none, true⟩ none rfl rfl
      (Or.inr rfl) rfl sync

/-- Claim C7: for every existing patient, `DELETE /{patient_id}` performs a
soft delete: it sets `is_active` to `False`, leaves every other field (`id`,
`name`, `date_of_birth`, `medical_record_number`, `department`,
`assigned_doctor_id`) unchanged, and keeps the row in the table (same row
count, the deactivated row still present). -/
theorem C7_delete_patient_soft_delete
    (authorize : Portal.UserRow → Portal.PatientRow → Bool)
    (current_user : Portal.UserRow) (patient_id : Nat)
    (db : List Portal.PatientRow) (removeOutcome : Portal.SyncCall)
    (patient : Portal.PatientRow)
    (h : db.find? (fun p => p.id == patient_id) = some patient)
    (ha : authorize current_user patient = true) :
    Portal.delete_patient authorize current_user patient_id db removeOutcome =
      (db.map fun p => if p.id == patient_id then
          { patient with is_active := false } else p,
       .ok "Patient deactivated successfully") ∧
    ({ patient with is_active := false } : Portal.PatientRow).is_active = false ∧
    ({ patient with is_active := false } : Portal.PatientRow).id = patient.id ∧
    ({ patient with is_active := false } : Portal.PatientRow).name = patient.name ∧
    ({ patient with is_active := false } : Portal.PatientRow).date_of_birth =
      patient.date_of_birth ∧
    ({ patient with is_active := false } : Portal.PatientRow).medical_record_number =
      patient.medical_record_number ∧
    ({ patient with is_active := false } : Portal.PatientRow).department =
      patient.department ∧
    ({ patient with is_active := false } : Portal.PatientRow).assigned_doctor_id =
      patient.assigned_doctor_id ∧
    ({ patient with is_active := false } : Portal.PatientRow) ∈
      (db.map fun p => if p.id == patient_id then
        { patient with is_active := false } else p) ∧
    (db.map fun p => if p.id == patient_id then
        { patient with is_active := false } else p).length = db.length := by
  refine ⟨?_, rfl, rfl, rfl, rfl, rfl, rfl, rfl, ?_, by simp⟩
  · simp [Portal.delete_patient, h, ha]
  · have hmem : patient ∈ db := List.mem_of_find?_eq_some h
    have hid := List.find?_some h
    simp only at hid
    have := List.mem_map_of_mem
      (fun p => if p.id == patient_id then
        { patient with is_active := false } else p) hmem
    simpa [hid] using this

/-- Witness for C7 on a two-row table. -/
theorem C7_delete_patient_soft_delete_witness :
    Portal.delete_patient (fun _ _ => true)
        ⟨9, "d", "d@x", "h", "doctor", none, true⟩ 1
        [⟨1, "Alice", some 5, "MRN1", some "ICU", some 9, true⟩,
         ⟨2, "Bob", none, "MRN2", none, none, true⟩] (.ok true) =
      ([⟨1, "Alice", some 5, "MRN1", some "ICU", some 9, false⟩,
        ⟨2, "Bob", none, "MRN2", none, none, true⟩],
       .ok "Patient deactivated successfully") := by
  have := (C7_delete_patient_soft_delete (fun _ _ => true)
    ⟨9, "d", "d@x", "h", "doctor", none, true⟩ 1
    [⟨1, "Alice", some 5, "MRN1", some "ICU", some 9, true⟩,
     ⟨2, "Bob", none, "MRN2", none, none, true⟩] (.ok true)
    ⟨1, "Alice", some 5, "MRN1", some "ICU", some 9, true⟩ rfl rfl).1
  simpa using this

/-- Counterexample to claim C8 as stated: when the inner coroutine completes
without any exception or timeout but no MCP tool with the requested name is
found, `sync_func` returns the not-found message — which is neither "the
tool's result" (no tool was invoked) nor a string beginning with "Error" —
so the claim's three-way case split over every invocation is not exhaustive
on the code. -/
theorem C8_counterexample :
    MCPWrapper.sync_func "math" (.completed .notFound) = "Tool math not found" ∧
    ¬ ∃ t, ("Tool math not found" : String) = "Error" ++ t := by
  constructor
  · rfl
  · rintro ⟨t, ht⟩
    have hd := congrArg (fun s => s.data.head?) ht
    simp only at hd
    have h2 : (("Error" ++ t : String).data.head?) = some 'E' := by
      show (("Error").data ++ t.data).head? = some 'E'
      rfl
    rw [h2] at hd
    have h3 : (("Tool math not found" : String).data.head?) = some 'T' := rfl
    rw [h3] at hd
    exact absurd (Option.some.inj hd) (by decide)

/-- Claim C8, amended: the synchronous MCP-tool wrapper never propagates a
(modelled) exception — `sync_func` is total into `String` — and: on timeout
it returns `"Error: Tool {tool_name} execution timed out"`; when the await
raises any other exception, or the inner coroutine catches one itself, the
returned string begins with `"Error"`; when the inner coroutine completes
with a found tool's result it returns that result; and when the coroutine
completes without finding the tool it returns
`"Tool {tool_name} not found"`. -/
theorem C8_sync_func_error_handling (tool_name result e₁ e₂ : String) :
    MCPWrapper.sync_func tool_name .timedOut =
      "Error: Tool " ++ tool_name ++ " execution timed out" ∧
    (∃ t, MCPWrapper.sync_func tool_name (.raised e₁) = "Error" ++ t) ∧
    (∃ t, MCPWrapper.sync_func tool_name (.completed (.raised e₂)) =
      "Error" ++ t) ∧
    MCPWrapper.sync_func tool_name (.completed (.found result)) = result ∧
    MCPWrapper.sync_func tool_name (.completed .notFound) =
      "Tool " ++ tool_name ++ " not found" := by
  refine ⟨rfl, ⟨" executing " ++ tool_name ++ ": " ++ e₁, ?_⟩,
    ⟨": " ++ e₂, ?_⟩, rfl, rfl⟩
  · show "Error executing " ++ tool_name ++ ": " ++ e₁ = _
    rw [← String.append_assoc, ← String.append_assoc, ← String.append_assoc]
    rfl
  · show "Error: " ++ e₂ = _
    rw [← String.append_assoc]
    rfl

end SdkExamples
